import Mathlib

/-!
# Verification of the Retail Analytics Copilot orchestrator

A shallow embedding of the hybrid RAG + SQL agent implemented in
`src/agent/graph_hybrid.py`, `src/agent/dspy_signatures.py` and
`src/agent/tools/sqlite_tool.py`, together with theorems settling the
specification claims about routing, the bounded repair loop, answer
parsing, citation building, and the confidence score.

Modelling conventions:
* Python strings are Lean `String`s; character-level work is done on
  `String.data : List Char`.  Python `float` values are modelled as exact
  rationals (`ℚ`); `round(x, 2)` is modelled by `round2` below.
* The external collaborators (language-model backend, retrieval index,
  SQLite database) are parameters of the run (`Adapters`); the orchestrator
  logic itself is embedded from the source.
* The LangGraph workflow is an explicit step function over a node name and
  the mutable `AgentState`, executed with fuel; `trace_events` records the
  node names appended by each handler (the handlers' extra metadata fields
  play no role in any claim and are omitted).
-/

namespace RetailCopilot

/-! ## Basic string helpers (Python `in`, `str.strip`, `str.lower`, ...) -/

/-- `leadsWith needle hay` : `needle` is an initial segment of `hay`. -/
def leadsWith : List Char → List Char → Bool
  | [], _ => true
  | _ :: _, [] => false
  | a :: as, b :: bs => a == b && leadsWith as bs

/-- `hasSub needle hay` : Python's substring test `needle in hay`. -/
def hasSub (needle : List Char) : List Char → Bool
  | [] => leadsWith needle []
  | h :: t => leadsWith needle (h :: t) || hasSub needle t

/-- Python `needle in hay` on strings. -/
def hasSubstr (needle hay : String) : Bool :=
  hasSub needle.data hay.data

/-- The whitespace characters recognised by Python's `str.strip()`. -/
def pyIsSpace (c : Char) : Bool :=
  c == ' ' || c == '\t' || c == '\n' || c == '\r' || c == '\x0b' || c == '\x0c'

/-- Python `str.strip()`: remove leading and trailing whitespace. -/
def pyStripL (l : List Char) : List Char :=
  ((l.dropWhile pyIsSpace).reverse.dropWhile pyIsSpace).reverse

/-- Python `str.strip()` on strings. -/
def pyStrip (s : String) : String :=
  String.mk (pyStripL s.data)

/-- Python `str.lower()` (ASCII, which covers all strings in this system). -/
def pyLower (s : String) : String :=
  String.mk (s.data.map Char.toLower)

/-- Python `str.upper()` (ASCII). -/
def pyUpper (s : String) : String :=
  String.mk (s.data.map Char.toUpper)

/-- Python string truthiness followed by `or`: `a or b`. -/
def pyOrStr (a b : String) : String :=
  if a = "" then b else a

/-- The `{` character (written via its code point throughout). -/
def lbrace : Char := Char.ofNat 123

/-- The `}` character (written via its code point throughout). -/
def rbrace : Char := Char.ofNat 125

/-- `startsWithStr p s` : Python `s.startswith(p)`. -/
def startsWithStr (p s : String) : Bool :=
  leadsWith p.data s.data

/-! ## JSON values and a model of Python's `json.loads`

`_parse_answer` relies on `json.loads`; we embed JSON values and a
recursive-descent parser.  Python `int` results are `Json.num : ℤ` and
`float` results are `Json.fnum : ℚ`; the parser is fuelled (the fuel
passed by `jsonParse` is always sufficient for the input length).
`NaN/Infinity` extensions and surrogate-pair decoding of `\uXXXX` escapes
are not modelled; no claim depends on them. -/

inductive Json where
  | null
  | bool (b : Bool)
  | num (n : ℤ)
  | fnum (q : ℚ)
  | str (s : String)
  | arr (items : List Json)
  | obj (fields : List (String × Json))

/-- JSON inter-token whitespace (the set accepted by `json.loads`). -/
def jsonIsWs (c : Char) : Bool :=
  c == ' ' || c == '\t' || c == '\n' || c == '\r'

/-- Skip JSON whitespace. -/
def jsonWsSkip (l : List Char) : List Char :=
  l.dropWhile jsonIsWs

/-- Numeric value of a decimal digit. -/
def digVal (c : Char) : Nat := c.toNat - 48

/-- Value of a digit string, most significant first (Python `int(...)`). -/
def digitsToNat (ds : List Char) : Nat :=
  ds.foldl (fun a c => a * 10 + digVal c) 0

/-- Numeric value of a hex digit, if any. -/
def hexVal (c : Char) : Option Nat :=
  if c.isDigit then some (c.toNat - 48)
  else if 'a' ≤ c && c ≤ 'f' then some (c.toNat - 87)
  else if 'A' ≤ c && c ≤ 'F' then some (c.toNat - 55)
  else none

/-- Value of a four-hex-digit escape. -/
def hex4 (a b c d : Char) : Option Nat :=
  match hexVal a, hexVal b, hexVal c, hexVal d with
  | some x, some y, some z, some w => some (((x * 16 + y) * 16 + z) * 16 + w)
  | _, _, _, _ => none

/-- Single-character JSON string escapes. -/
def escChar (e : Char) : Option Char :=
  if e = '"' then some '"'
  else if e = '\\' then some '\\'
  else if e = '/' then some '/'
  else if e = 'b' then some (Char.ofNat 8)
  else if e = 'f' then some (Char.ofNat 12)
  else if e = 'n' then some '\n'
  else if e = 'r' then some '\r'
  else if e = 't' then some '\t'
  else none

/-- Parse a JSON exponent part (input must start with `e`/`E`). -/
def pExp (v : ℚ) : List Char → Option (ℚ × List Char)
  | [] => none
  | e :: r =>
    if e = 'e' || e = 'E' then
      let esignSplit : Bool × List Char :=
        match r with
        | '+' :: t => (false, t)
        | '-' :: t => (true, t)
        | _ => (false, r)
      let es := esignSplit.2.takeWhile Char.isDigit
      if es.isEmpty then none
      else
        some ((if esignSplit.1 then v / (10 : ℚ) ^ digitsToNat es
               else v * (10 : ℚ) ^ digitsToNat es), esignSplit.2.drop es.length)
    else none

/-- Parse a JSON number: sign, integer part without leading zeros,
optional fraction, optional exponent.  A bare integer yields a Python
`int` (`Json.num`); a fraction or exponent yields a Python `float`
(`Json.fnum`). -/
def pNum (l : List Char) : Option (Json × List Char) :=
  let neg : Bool :=
    match l with
    | '-' :: _ => true
    | _ => false
  let l1 := if neg then l.drop 1 else l
  let ds := l1.takeWhile Char.isDigit
  let l2 := l1.drop ds.length
  if ds.isEmpty then none
  else if 1 < ds.length && ds.head? == some '0' then none
  else
    let n : ℤ := if neg then -(digitsToNat ds : ℤ) else (digitsToNat ds : ℤ)
    match l2 with
    | '.' :: r =>
      let fs := r.takeWhile Char.isDigit
      if fs.isEmpty then none
      else
        let v : ℚ :=
          (n : ℚ) + (if neg then (-1 : ℚ) else 1) * (digitsToNat fs : ℚ) / (10 : ℚ) ^ fs.length
        let l3 := r.drop fs.length
        match l3 with
        | 'e' :: _ => (pExp v l3).map (fun p => (Json.fnum p.1, p.2))
        | 'E' :: _ => (pExp v l3).map (fun p => (Json.fnum p.1, p.2))
        | _ => some (Json.fnum v, l3)
    | 'e' :: _ => (pExp (n : ℚ) l2).map (fun p => (Json.fnum p.1, p.2))
    | 'E' :: _ => (pExp (n : ℚ) l2).map (fun p => (Json.fnum p.1, p.2))
    | _ => some (Json.num n, l2)

/-- The literal `null` as characters. -/
def wordNull : List Char := ['n', 'u', 'l', 'l']

/-- The literal `true` as characters. -/
def wordTrue : List Char := ['t', 'r', 'u', 'e']

/-- The literal `false` as characters. -/
def wordFalse : List Char := ['f', 'a', 'l', 's', 'e']

mutual

/-- Parse one JSON value at the head of the input (whitespace already
skipped by the caller); returns the value and the remaining input. -/
def pVal : Nat → List Char → Option (Json × List Char)
  | 0, _ => none
  | fuel + 1, l =>
    match l with
    | [] => none
    | c :: t =>
      if c = '"' then (pStrB fuel t).map (fun p => (Json.str (String.mk p.1), p.2))
      else if c = lbrace then pObjStart fuel (jsonWsSkip t)
      else if c = '[' then pArrStart fuel (jsonWsSkip t)
      else if leadsWith wordNull l then some (Json.null, l.drop 4)
      else if leadsWith wordTrue l then some (Json.bool true, l.drop 4)
      else if leadsWith wordFalse l then some (Json.bool false, l.drop 5)
      else pNum l

/-- Parse a JSON string body after the opening quote; returns the decoded
content and the input after the closing quote. -/
def pStrB : Nat → List Char → Option (List Char × List Char)
  | 0, _ => none
  | fuel + 1, l =>
    match l with
    | [] => none
    | c :: t =>
      if c = '"' then some ([], t)
      else if c = '\\' then
        match t with
        | [] => none
        | e :: t2 =>
          if e = 'u' then
            match t2 with
            | a :: b :: c2 :: d :: t3 =>
              match hex4 a b c2 d with
              | some n => (pStrB fuel t3).map (fun p => (Char.ofNat n :: p.1, p.2))
              | none => none
            | _ => none
          else
            match escChar e with
            | some ch => (pStrB fuel t2).map (fun p => (ch :: p.1, p.2))
            | none => none
      else (pStrB fuel t).map (fun p => (c :: p.1, p.2))

/-- Parse an array after `[` and whitespace. -/
def pArrStart : Nat → List Char → Option (Json × List Char)
  | 0, _ => none
  | fuel + 1, l =>
    match l with
    | [] => none
    | c :: _ =>
      if c = ']' then some (Json.arr [], l.drop 1)
      else
        match pVal fuel l with
        | some (v, r) => pArrRest fuel [v] (jsonWsSkip r)
        | none => none

/-- Parse the rest of an array (accumulator holds items in reverse). -/
def pArrRest : Nat → List Json → List Char → Option (Json × List Char)
  | 0, _, _ => none
  | fuel + 1, acc, l =>
    match l with
    | [] => none
    | c :: t =>
      if c = ']' then some (Json.arr acc.reverse, t)
      else if c = ',' then
        match pVal fuel (jsonWsSkip t) with
        | some (v, r) => pArrRest fuel (v :: acc) (jsonWsSkip r)
        | none => none
      else none

/-- Parse an object after `{` and whitespace. -/
def pObjStart : Nat → List Char → Option (Json × List Char)
  | 0, _ => none
  | fuel + 1, l =>
    match l with
    | [] => none
    | c :: _ =>
      if c = rbrace then some (Json.obj [], l.drop 1)
      else
        match pPair fuel l with
        | some (kv, r) => pObjRest fuel [kv] (jsonWsSkip r)
        | none => none

/-- Parse one `"key": value` pair. -/
def pPair : Nat → List Char → Option ((String × Json) × List Char)
  | 0, _ => none
  | fuel + 1, l =>
    match l with
    | [] => none
    | c :: t =>
      if c = '"' then
        match pStrB fuel t with
        | some (k, r) =>
          match jsonWsSkip r with
          | ':' :: r2 =>
            match pVal fuel (jsonWsSkip r2) with
            | some (v, r3) => some ((String.mk k, v), r3)
            | none => none
          | _ => none
        | none => none
      else none

/-- Parse the rest of an object (accumulator holds pairs in reverse). -/
def pObjRest : Nat → List (String × Json) → List Char → Option (Json × List Char)
  | 0, _, _ => none
  | fuel + 1, acc, l =>
    match l with
    | [] => none
    | c :: t =>
      if c = rbrace then some (Json.obj acc.reverse, t)
      else if c = ',' then
        match pPair fuel (jsonWsSkip t) with
        | some (kv, r) => pObjRest fuel (kv :: acc) (jsonWsSkip r)
        | none => none
      else none

end

/-- Model of Python `json.loads`: parse one value surrounded by optional
whitespace; anything left over is an error (`None`). -/
def jsonParse (s : String) : Option Json :=
  match pVal (3 * s.data.length + 16) (jsonWsSkip s.data) with
  | some (v, rest) => if (jsonWsSkip rest).isEmpty then some v else none
  | none => none

/-! ## The answer parser `HybridAgent._parse_answer`

The regular-expression searches used by the source are modelled by
dedicated functions with the same semantics on the patterns in question:
`firstDigitRunL` is `re.search(r'\d+', s)` (first position with a digit,
greedy run), `firstFloatTokL` is `re.search(r'\d+\.?\d*', s)`, and
`braceSearchL` is `re.search(r'(\{.*?\}|\[.*?\])', s, re.DOTALL)`
(leftmost start, lazy extension to the first closing delimiter).

Note on the structured branch: `graph_hybrid.py` has no module-level
`import re`; inside `_parse_answer` the statement `import re` occurs only
in the `int` branch, the `float` branch and the JSON-fallback `except`
block, which makes `re` a *local* of the function.  When the format hint
is structured and the answer contains ``` the code evaluates `re.search`
before any of those imports has run, raising `UnboundLocalError`, which
the outer `except Exception` handler catches, returning the (stripped)
raw string.  The embedding reproduces this behaviour. -/

/-- The typed values `_parse_answer` can produce. -/
inductive Answer where
  | int (n : ℤ)
  | float (q : ℚ)
  | json (j : Json)
  | str (s : String)

/-- `re.search(r'\d+', ·)`: the maximal digit run starting at the first
digit, if any digit occurs. -/
def firstDigitRunL : List Char → Option (List Char)
  | [] => none
  | h :: t => if h.isDigit then some (h :: t.takeWhile Char.isDigit) else firstDigitRunL t

/-- `re.search(r'\d+\.?\d*', ·)`: at the first digit, a greedy digit run,
then an optional dot followed by a greedy (possibly empty) digit run. -/
def firstFloatTokL : List Char → Option (List Char)
  | [] => none
  | h :: t =>
    if h.isDigit then
      let ds := t.takeWhile Char.isDigit
      let rest := t.drop ds.length
      let tail :=
        match rest with
        | '.' :: r2 => '.' :: r2.takeWhile Char.isDigit
        | _ => []
      some (h :: ds ++ tail)
    else firstFloatTokL t

/-- Prefix of the list up to and including the first occurrence of `c`. -/
def upToFirst (c : Char) : List Char → Option (List Char)
  | [] => none
  | h :: t => if h = c then some [h] else (upToFirst c t).map (h :: ·)

/-- `re.search(r'(\{.*?\}|\[.*?\])', ·, re.DOTALL)`: leftmost position
holding an opening delimiter with a matching closer somewhere after it;
lazy `.*?` stops at the first closer. -/
def braceSearchL : List Char → Option (List Char)
  | [] => none
  | h :: t =>
    if h = lbrace then
      match upToFirst rbrace t with
      | some pre => some (h :: pre)
      | none => braceSearchL t
    else if h = '[' then
      match upToFirst ']' t with
      | some pre => some (h :: pre)
      | none => braceSearchL t
    else braceSearchL t

/-- `float(...)` of a token matched by `\d+\.?\d*`: integer digits,
optionally a dot and fraction digits. -/
def floatTokVal (tok : List Char) : ℚ :=
  let ds := tok.takeWhile Char.isDigit
  let rest := tok.drop ds.length
  match rest with
  | '.' :: fs => (digitsToNat ds : ℚ) + (digitsToNat fs : ℚ) / (10 : ℚ) ^ fs.length
  | _ => (digitsToNat ds : ℚ)

/-- `round(x, 2)`, with Python floats modelled as exact rationals: round
`100 x` to the nearest integer and divide back. -/
def round2 (q : ℚ) : ℚ :=
  ((round (q * 100) : ℤ) : ℚ) / 100

/-- `HybridAgent._parse_answer(answer_str, format_hint)`. -/
def parseAnswer (answer_str format_hint : String) : Answer :=
  let a := pyStrip answer_str
  if format_hint = "int" then
    match firstDigitRunL a.data with
    | some ds => Answer.int (digitsToNat ds : ℤ)
    | none => Answer.int 0
  else if format_hint = "float" then
    match firstFloatTokL a.data with
    | some tok => Answer.float (round2 (floatTokVal tok))
    | none => Answer.float 0
  else if startsWithStr (String.mk [lbrace]) format_hint || startsWithStr "list[" format_hint then
    if hasSubstr "```" a then
      -- `re.search` on the fence pattern raises UnboundLocalError (see the
      -- section comment); the outer handler returns the current string.
      Answer.str a
    else
      match jsonParse a with
      | some v => Answer.json v
      | none =>
        match braceSearchL a.data with
        | some sub =>
          match jsonParse (String.mk sub) with
          | some v => Answer.json v
          -- the inner `json.loads` raises out of the `except` block; the
          -- outer handler returns the current string.
          | none => Answer.str a
        | none => Answer.json (Json.obj [])
  else Answer.str a

/-- `True` exactly when a run's `final_answer` field would be `None` in
Python (never assigned, or assigned the parse of a JSON `null`). -/
def answerIsNull : Option Answer → Bool
  | none => true
  | some (Answer.json Json.null) => true
  | some _ => false

/-! ## Data model (`retrieval.py`, `sqlite_tool.py`, `graph_hybrid.py`) -/

/-- `retrieval.DocumentChunk` (relevance scores as exact rationals). -/
structure DocumentChunk where
  id : String
  content : String
  source : String
  score : ℚ
deriving DecidableEq

/-- A database row; cell values are modelled by their textual rendering
(no claim inspects a cell). -/
abbrev Row := List String

/-- `sqlite_tool.QueryResult`.  `tables_used` defaults to `None` in the
dataclass but every construction site supplies a list, so it is modelled
as a plain list. -/
structure QueryResult where
  success : Bool
  columns : List String
  rows : List Row
  error : Option String
  tables_used : List String
deriving DecidableEq

/-- `graph_hybrid.AgentState`.  `final_answer : Option Answer` models the
Python field that starts as `None`; `trace_events` keeps the node names
appended by the handlers (their metadata fields are not used by any
claim); `errors` collects the appended `result.error` values. -/
structure AgentState where
  question : String
  format_hint : String
  route : String
  retrieved_chunks : List DocumentChunk
  doc_context : String
  constraints : String
  sql_query : String
  sql_result : Option QueryResult
  sql_attempts : Nat
  final_answer : Option Answer
  reasoning : String
  confidence : ℚ
  citations : List String
  repair_count : Nat
  errors : List (Option String)
  trace_events : List String

/-- The external collaborators of one run: the raw classifier output, the
retrieval index (`retrieve(question, top_k)`), the four reasoning-service
operations, the database adapter (`execute_query`) and the compact
schema string. -/
structure Adapters where
  classify : String → String
  retrieve : String → Nat → List DocumentChunk
  extractConstraints : String → String → String
  genSql : String → String → String → String
  refineSql : String → String → String → String → String
  synthesize : String → String → String → String → String × String
  db : String → QueryResult
  schema : String

/-! ## Router (`dspy_signatures.Router.forward`) -/

/-- The document keywords of the router fallback. -/
def docWords : List String := ["policy", "return", "window", "days", "definition"]

/-- The aggregate-query keywords of the router fallback. -/
def aggWords : List String := ["revenue", "top", "total", "sum", "count"]

/-- The temporal/campaign keywords of the router fallback. -/
def tempWords : List String := ["during", "campaign", "marketing", "calendar"]

/-- `Router.forward`: normalise the classifier output; if it is not one of
the three labels, fall back to keyword heuristics on the lowered
question. -/
def routerForward (classify : String → String) (question : String) : String :=
  let route := pyStrip (pyLower (classify question))
  if route = "rag" ∨ route = "sql" ∨ route = "hybrid" then route
  else
    let q := pyLower question
    if docWords.any (fun w => hasSubstr w q) then "rag"
    else if aggWords.any (fun w => hasSubstr w q) then
      if tempWords.any (fun w => hasSubstr w q) then "hybrid" else "sql"
    else "hybrid"

/-! ## Confidence scorer (`HybridAgent._calculate_confidence`) -/

/-- `_calculate_confidence`, literally transcribed (Python float
arithmetic modelled on ℚ). -/
def calcConfidence (s : AgentState) : ℚ :=
  let base : ℚ := 55 / 100
  let chunks := s.retrieved_chunks
  let doc_score : ℚ :=
    if chunks.isEmpty then 0
    else
      let avg_score := (chunks.map DocumentChunk.score).sum / (max 1 chunks.length : ℚ)
      min (35 / 100) (2 / 10 + 5 / 10 * avg_score * (35 / 100))
  let sql_score : ℚ :=
    match s.sql_result with
    | none => 0
    | some r =>
      if r.success && !r.rows.isEmpty then 35 / 100
      else if r.success && r.rows.isEmpty then 15 / 100
      else 0
  let cit_score : ℚ :=
    if s.citations.isEmpty then 0
    else
      let has_table := s.citations.any (fun c => !hasSubstr "::" c)
      (6 / 100 + min (6 / 100) (3 / 100 * (s.citations.length : ℚ))) +
        (if has_table then 2 / 100 else 0)
  let repair_penalty : ℚ :=
    if 0 < s.repair_count then (9 / 10) ^ s.repair_count else 1
  let confidence := (base + doc_score + sql_score + cit_score) * repair_penalty
  round2 (max 0 (min 1 confidence))

/-- The confidence formula exactly as the specification words it (the
spec-side definition of the refinement claim, to be compared with the
code-side `calcConfidence`):
`clamp((0.55 + doc + sql + cit) * 0.9^repair_count, 0, 1)` rounded to two
decimals, with `doc = 0` when no fragments were retrieved and otherwise
`min(0.35, 0.2 + 0.175 * mean fragment score)`; `sql = 0.35` for a
successful query with rows, `0.15` for a successful empty one, else `0`;
`cit = 0` without citations and otherwise
`0.06 + min(0.06, 0.03 * count)` plus `0.02` when some citation has no
`::` separator. -/
def specConfidence (s : AgentState) : ℚ :=
  let doc : ℚ :=
    if s.retrieved_chunks = [] then 0
    else
      min (35 / 100) (2 / 10 + (175 / 1000) *
        ((s.retrieved_chunks.map DocumentChunk.score).sum / (s.retrieved_chunks.length : ℚ)))
  let sql : ℚ :=
    match s.sql_result with
    | none => 0
    | some r =>
      if r.success = true ∧ r.rows ≠ [] then 35 / 100
      else if r.success = true ∧ r.rows = [] then 15 / 100
      else 0
  let cit : ℚ :=
    if s.citations = [] then 0
    else
      (6 / 100 + min (6 / 100) (3 / 100 * (s.citations.length : ℚ))) +
        (if s.citations.any (fun c => !hasSubstr "::" c) then 2 / 100 else 0)
  round2 (max 0 (min 1 ((55 / 100 + doc + sql + cit) * (9 / 10) ^ s.repair_count)))

/-! ## Workflow nodes (`HybridAgent._*_node`) -/

/-- Node names of the LangGraph workflow. -/
inductive Node where
  | route
  | retrieve
  | plan
  | generate_sql
  | execute_sql
  | synthesize
  | validate
  | repair_sql
deriving DecidableEq

/-- `MAX_REPAIRS`: the literal bound `2` of `_check_sql_success`. -/
def MAX_REPAIRS : Nat := 2

/-- `_route_node`.  `repair_count` and `sql_attempts` are plain fields and
are overwritten; `errors` is an `operator.add`-reduced field, so the
assignment `state["errors"] = []` concatenates nothing. -/
def routeNode (A : Adapters) (s : AgentState) : AgentState :=
  { s with
    route := routerForward A.classify s.question
    trace_events := s.trace_events ++ ["route"]
    repair_count := 0
    sql_attempts := 0
    errors := s.errors }

/-- `_retrieve_node` (`top_k = 3`). -/
def retrieveNode (A : Adapters) (s : AgentState) : AgentState :=
  let chunks := A.retrieve s.question 3
  let doc_context :=
    String.intercalate "\n\n" (chunks.map (fun c => "[" ++ c.id ++ "] " ++ c.content))
  { s with
    retrieved_chunks := chunks
    doc_context := doc_context
    trace_events := s.trace_events ++ ["retrieve"] }

/-- `_plan_node`. -/
def planNode (A : Adapters) (s : AgentState) : AgentState :=
  let constraints :=
    if s.doc_context ≠ "" then A.extractConstraints s.question s.doc_context
    else "No document context available."
  { s with
    constraints := constraints
    trace_events := s.trace_events ++ ["plan"] }

/-- `_generate_sql_node`. -/
def generateSqlNode (A : Adapters) (s : AgentState) : AgentState :=
  let context := pyOrStr s.constraints s.doc_context
  let sql := A.genSql s.question A.schema context
  { s with
    sql_query := sql
    sql_attempts := s.sql_attempts + 1
    trace_events := s.trace_events ++ ["generate_sql"] }

/-- `_execute_sql_node`. -/
def executeSqlNode (A : Adapters) (s : AgentState) : AgentState :=
  let result := A.db s.sql_query
  { s with
    sql_result := some result
    errors := s.errors ++ (if !result.success then [result.error] else [])
    trace_events := s.trace_events ++ ["execute_sql"] }

/-- `_repair_sql_node`.  (The node is only ever entered with
`sql_result ≠ none`; for totality the `none` case takes the default
message.) -/
def repairSqlNode (A : Adapters) (s : AgentState) : AgentState :=
  let err :=
    match s.sql_result with
    | some r => pyOrStr (r.error.getD "") "Query returned no results"
    | none => "Query returned no results"
  let refined := A.refineSql s.question s.sql_query err A.schema
  { s with
    sql_query := refined
    sql_attempts := s.sql_attempts + 1
    repair_count := s.repair_count + 1
    trace_events := s.trace_events ++ ["repair_sql"] }

/-- The `sql_result` rendering passed to the synthesizer (non-empty only
for a successful result with rows; exact f-string formatting is opaque to
every claim). -/
def renderSqlResult (s : AgentState) : String :=
  match s.sql_result with
  | some r =>
    if r.success && !r.rows.isEmpty then
      "Columns: [" ++ String.intercalate ", " r.columns ++ "]\nRows: [" ++
        String.intercalate ", " ((r.rows.take 10).map (String.intercalate "|")) ++ "]"
    else ""
  | none => ""

/-- The document citations built by `_synthesize_node`: identifiers of the
retrieved fragments with score above `0.01`. -/
def docCitations (s : AgentState) : List String :=
  (s.retrieved_chunks.filter (fun c => (1 : ℚ) / 100 < c.score)).map DocumentChunk.id

/-- The table citations built by `_synthesize_node`: the tables of the
last query result, only when it succeeded. -/
def tableCitations (s : AgentState) : List String :=
  match s.sql_result with
  | some r => if r.success then r.tables_used else []
  | none => []

/-- `_synthesize_node`.  Note that `_calculate_confidence` is invoked on
the state *before* the new citations are written (as in the source), and
`list(set(...))` is modelled by `List.dedup`. -/
def synthesizeNode (A : Adapters) (s : AgentState) : AgentState :=
  let sql_result_str := renderSqlResult s
  let ra := A.synthesize s.question s.format_hint s.doc_context sql_result_str
  let final_answer := parseAnswer ra.2 s.format_hint
  let citations := (docCitations s ++ tableCitations s).dedup
  let confidence := calcConfidence s
  { s with
    final_answer := some final_answer
    reasoning := ra.1
    confidence := confidence
    citations := citations
    trace_events := s.trace_events ++ ["synthesize"] }

/-- `_validate_node`: terminal bookkeeping only. -/
def validateNode (s : AgentState) : AgentState :=
  { s with trace_events := s.trace_events ++ ["validate"] }

/-! ## Edge conditions and the workflow step (`_build_graph`) -/

/-- `_route_decision`. -/
def routeDecision (s : AgentState) : String := s.route

/-- `_needs_sql`. -/
def needsSql (s : AgentState) : String :=
  if s.route = "sql" ∨ s.route = "hybrid" then "yes" else "no"

/-- `_check_sql_success`. -/
def checkSqlSuccess (s : AgentState) : String :=
  match s.sql_result with
  | none => "fail"
  | some result =>
    if result.success && !result.rows.isEmpty then "success"
    else if s.repair_count < MAX_REPAIRS then "retry"
    else "fail"

/-- `_check_synthesis` (fixed single-pass policy). -/
def checkSynthesis (_ : AgentState) : String := "done"

/-- Outcome of an edge lookup: continue at a node, reach `END`, or abort
(a decision value missing from the conditional-edge mapping, which
LangGraph would surface as an error). -/
inductive Next where
  | go (n : Node)
  | finish
  | abort
deriving DecidableEq

/-- Run one node's handler. -/
def runNode (A : Adapters) : Node → AgentState → AgentState
  | Node.route, s => routeNode A s
  | Node.retrieve, s => retrieveNode A s
  | Node.plan, s => planNode A s
  | Node.generate_sql, s => generateSqlNode A s
  | Node.execute_sql, s => executeSqlNode A s
  | Node.synthesize, s => synthesizeNode A s
  | Node.validate, s => validateNode s
  | Node.repair_sql, s => repairSqlNode A s

/-- The node name written into the trace by each handler. -/
def nodeName : Node → String
  | Node.route => "route"
  | Node.retrieve => "retrieve"
  | Node.plan => "plan"
  | Node.generate_sql => "generate_sql"
  | Node.execute_sql => "execute_sql"
  | Node.synthesize => "synthesize"
  | Node.validate => "validate"
  | Node.repair_sql => "repair_sql"

/-- The edges of `_build_graph`: each conditional-edge mapping is the
dictionary lookup on the decision function's string. -/
def nextNode : Node → AgentState → Next
  | Node.route, s =>
    if routeDecision s = "rag" then Next.go Node.retrieve
    else if routeDecision s = "sql" then Next.go Node.plan
    else if routeDecision s = "hybrid" then Next.go Node.retrieve
    else Next.abort
  | Node.retrieve, _ => Next.go Node.plan
  | Node.plan, s =>
    if needsSql s = "yes" then Next.go Node.generate_sql
    else if needsSql s = "no" then Next.go Node.synthesize
    else Next.abort
  | Node.generate_sql, _ => Next.go Node.execute_sql
  | Node.execute_sql, s =>
    if checkSqlSuccess s = "success" then Next.go Node.synthesize
    else if checkSqlSuccess s = "retry" then Next.go Node.repair_sql
    else if checkSqlSuccess s = "fail" then Next.go Node.synthesize
    else Next.abort
  | Node.repair_sql, _ => Next.go Node.execute_sql
  | Node.synthesize, s =>
    if checkSynthesis s = "valid" then Next.go Node.validate
    else if checkSynthesis s = "retry" then Next.go Node.synthesize
    else if checkSynthesis s = "done" then Next.go Node.validate
    else Next.abort
  | Node.validate, _ => Next.finish

/-- Execute the workflow from a node with the given fuel.  `none` means
the run did not complete (out of fuel, or an aborted edge). -/
def runAux (A : Adapters) : Nat → Node → AgentState → Option AgentState
  | 0, _, _ => none
  | fuel + 1, n, s =>
    let s' := runNode A n s
    match nextNode n s' with
    | Next.go n' => runAux A fuel n' s'
    | Next.finish => some s'
    | Next.abort => none

/-- The initial state built by `answer_question`. -/
def mkInitState (question format_hint : String) : AgentState :=
  { question := question
    format_hint := format_hint
    route := ""
    retrieved_chunks := []
    doc_context := ""
    constraints := ""
    sql_query := ""
    sql_result := none
    sql_attempts := 0
    final_answer := none
    reasoning := ""
    confidence := 0
    citations := []
    repair_count := 0
    errors := []
    trace_events := [] }

/-- A complete run of `answer_question`'s graph invocation. -/
def runAgent (A : Adapters) (fuel : Nat) (question format_hint : String) :
    Option AgentState :=
  runAux A fuel Node.route (mkInitState question format_hint)

/-- Occurrences of a node name in a trace. -/
def countOccur (x : String) (l : List String) : Nat := l.count x

/-- The trace of a possibly-failed run. -/
def traceOfRun (o : Option AgentState) : List String :=
  o.elim [] AgentState.trace_events

/-- The `final_answer` of a possibly-failed run. -/
def finalOfRun (o : Option AgentState) : Option Answer :=
  o.elim none AgentState.final_answer

/-- Configurations reachable within one run started at `c₀`: the start
configuration, plus one workflow step (run the current node's handler,
follow the edge) from any reachable configuration. -/
inductive ReachesC (A : Adapters) (c₀ : Node × AgentState) : Node × AgentState → Prop where
  | start : ReachesC A c₀ c₀
  | more {n : Node} {s : AgentState} {n' : Node} :
      ReachesC A c₀ (n, s) →
      nextNode n (runNode A n s) = Next.go n' →
      ReachesC A c₀ (n', runNode A n s)

/-! ## The database adapter (`sqlite_tool.NorthwindDB.execute_query`)

The `sqlite3` library call is the external part: `raw sql` returns either
the produced `(columns, rows)` (with the cursor-description-`None` case
already folded into an empty column list) or the message of the raised
exception.  `_extract_tables_from_sql` is embedded below. -/

/-- A regex word character (`\w`). -/
def wordChar (c : Char) : Bool := c.isAlphanum || c = '_'

/-- `\b needle \b` matches at the current position given the previous
character (for needles that start and end with word characters, as all
Northwind table names do). -/
def wbAt (needle : List Char) (prev : Option Char) (hay : List Char) : Bool :=
  leadsWith needle hay &&
    (match prev with
     | some c => !wordChar c
     | none => true) &&
    (match hay.drop needle.length with
     | c :: _ => !wordChar c
     | [] => true)

/-- `re.search(r'\b' + needle + r'\b', hay)` as a Boolean. -/
def wbSearch (needle : List Char) : Option Char → List Char → Bool
  | prev, [] => wbAt needle prev []
  | prev, c :: t => wbAt needle prev (c :: t) || wbSearch needle (some c) t

/-- Lexicographic comparison of character lists by code point (Python's
string ordering for the ASCII names involved). -/
def charListLe : List Char → List Char → Bool
  | [], _ => true
  | _ :: _, [] => false
  | a :: as, b :: bs => if a = b then charListLe as bs else decide (a.toNat < b.toNat)

/-- Insert into a sorted list of strings. -/
def insertSorted (x : String) : List String → List String
  | [] => [x]
  | y :: t => if charListLe x.data y.data then x :: y :: t else y :: insertSorted x t

/-- `sorted(...)` on strings. -/
def sortStrs (l : List String) : List String :=
  l.foldr insertSorted []

/-- `NorthwindDB._extract_tables_from_sql`: the known table names whose
upper-cased form occurs with word boundaries in the upper-cased SQL,
deduplicated and sorted. -/
def extractTables (schemaTables : List String) (sql : String) : List String :=
  sortStrs ((schemaTables.filter
    (fun t => wbSearch (pyUpper t).data none (pyUpper sql).data)).dedup)

/-- `NorthwindDB.execute_query`: wrap the raw execution, never raising —
on success build a `QueryResult` with the referenced tables, on any
exception return the structured failure. -/
def executeQuery (raw : String → Except String (List String × List Row))
    (schemaTables : List String) (sql : String) : QueryResult :=
  match raw sql with
  | Except.ok cr =>
    { success := true
      columns := cr.1
      rows := cr.2
      error := none
      tables_used := extractTables schemaTables sql }
  | Except.error e =>
    { success := false
      columns := []
      rows := []
      error := some e
      tables_used := [] }

/-! ## Concrete fixtures used by witnesses and counterexamples -/

/-- A failed query outcome, as produced by `execute_query` on an
exception. -/
def failResult : QueryResult :=
  { success := false
    columns := []
    rows := []
    error := some "no such table: orders"
    tables_used := [] }

/-- Adapters with a database that fails on every execution and a
classifier answering `sql`. -/
def AdFail : Adapters :=
  { classify := fun _ => "sql"
    retrieve := fun _ _ => []
    extractConstraints := fun _ _ => "no constraints"
    genSql := fun _ _ _ => "SELECT 1"
    refineSql := fun _ _ _ _ => "SELECT 2"
    synthesize := fun _ _ _ _ => ("the query failed", "42")
    db := fun _ => failResult
    schema := "Orders(OrderID)" }

/-- As `AdFail`, but the synthesizer answers with the literal `null`. -/
def AdNull : Adapters :=
  { AdFail with synthesize := fun _ _ _ _ => ("the query failed", "null") }

/-- A strongly relevant fragment (score `0.5`). -/
def chunkA : DocumentChunk :=
  { id := "product_policy::chunk0"
    content := "Returns are accepted within 14 days."
    source := "product_policy"
    score := 1 / 2 }

/-- A weakly relevant fragment (score `0.02`, still above the `0.01`
filter threshold). -/
def chunkB : DocumentChunk :=
  { id := "product_policy::chunk1"
    content := "Opened items are not returnable."
    source := "product_policy"
    score := 1 / 50 }

/-- A successful query outcome referencing one table. -/
def okOrders : QueryResult :=
  { success := true
    columns := ["count"]
    rows := [["51"]]
    error := none
    tables_used := ["Orders"] }

/-- A synthesis-time state with the two fragments above and the
successful one-table query result (the claim-C5 scenario). -/
def stateC5 : AgentState :=
  { mkInitState "q" "int" with
    retrieved_chunks := [chunkA, chunkB]
    sql_result := some okOrders }

/-! # Theorems -/

/-! ## Shared helper lemmas -/

/-- A list with no digits has no first digit run. -/
theorem firstDigitRunL_eq_none (l : List Char) (h : ∀ c ∈ l, c.isDigit = false) :
    firstDigitRunL l = none := by
  induction l with
  | nil => rfl
  | cons a t ih =>
    have ha := h a (by simp)
    simp only [firstDigitRunL, ha, Bool.false_eq_true, if_false]
    exact ih fun c hc => h c (by simp [hc])

/-- Stripping keeps only characters of the original string. -/
theorem mem_of_mem_pyStripL {c : Char} {l : List Char} (h : c ∈ pyStripL l) : c ∈ l := by
  unfold pyStripL at h
  rw [List.mem_reverse] at h
  have h1 := (List.dropWhile_sublist (l := (l.dropWhile pyIsSpace).reverse)
    (p := pyIsSpace)).subset h
  rw [List.mem_reverse] at h1
  exact (List.dropWhile_sublist (l := l) (p := pyIsSpace)).subset h1

/-- `answerIsNull` on an assigned answer detects exactly the JSON
`null`. -/
theorem answerIsNull_some {a : Answer} (h : a ≠ Answer.json Json.null) :
    answerIsNull (some a) = false := by
  cases a with
  | json j => cases j <;> first | rfl | exact absurd rfl h
  | _ => rfl

/-- The router always produces one of the three recognised labels. -/
theorem routerForward_mem (classify : String → String) (q : String) :
    routerForward classify q = "rag" ∨ routerForward classify q = "sql" ∨
      routerForward classify q = "hybrid" := by
  unfold routerForward
  by_cases h1 : pyStrip (pyLower (classify q)) = "rag" ∨
      pyStrip (pyLower (classify q)) = "sql" ∨ pyStrip (pyLower (classify q)) = "hybrid"
  · rcases h1 with h | h | h <;> simp [h]
  · by_cases h2 : (docWords.any fun w => hasSubstr w (pyLower q)) = true
    · simp [h1, h2]
    · by_cases h3 : (aggWords.any fun w => hasSubstr w (pyLower q)) = true
      · by_cases h4 : (tempWords.any fun w => hasSubstr w (pyLower q)) = true
        · simp [h1, h2, h3, h4]
        · simp [h1, h2, h3, h4]
      · simp [h1, h2, h3]

/-! ## C9 — the data adapter's `execute_query` never throws -/

/-- Claim C9: for every query string, `execute_query` returns a structured
`QueryResult`; whenever the underlying execution raises, the outcome is
`{success: false, error: message}` with empty columns, rows and
`tables_used` (and on success it carries the produced columns/rows and
the referenced tables). -/
theorem c9_execute_never_throws
    (raw : String → Except String (List String × List Row))
    (tbls : List String) (sql : String) :
    (∀ e, raw sql = Except.error e →
      executeQuery raw tbls sql =
        { success := false, columns := [], rows := [], error := some e,
          tables_used := [] }) ∧
    (∀ cr, raw sql = Except.ok cr →
      executeQuery raw tbls sql =
        { success := true, columns := cr.1, rows := cr.2, error := none,
          tables_used := extractTables tbls sql }) := by
  constructor <;> intro x h <;> simp [executeQuery, h]

/-- Witness for C9 at a concrete failing execution. -/
theorem c9_witness :
    executeQuery (fun _ => Except.error "no such table: orders") ["Orders"] "SELECT 1" =
      { success := false, columns := [], rows := [], error := some "no such table: orders",
        tables_used := [] } :=
  (c9_execute_never_throws (fun _ => Except.error "no such table: orders")
    ["Orders"] "SELECT 1").1 "no such table: orders" rfl

/-! ## C4 — fenced structured answers are not actually unfenced -/

/-- Claim C4 (code-bug evidence): under a record-shaped format hint, the
code returns the raw fenced string for a fenced structured answer (the
fence-stripping branch references the function-local `re` before any
`import re` has executed, and the resulting `UnboundLocalError` is caught
by the blanket handler), while the unfenced string parses to the
structured value — so fenced and unfenced parses differ, against the
claimed idempotence. -/
theorem c4_fence_strip_divergence :
    parseAnswer "```\x7b\"a\": 1\x7d```" "\x7b\"a\": int\x7d" =
      Answer.str "```\x7b\"a\": 1\x7d```" ∧
    parseAnswer "\x7b\"a\": 1\x7d" "\x7b\"a\": int\x7d" =
      Answer.json (Json.obj [("a", Json.num 1)]) ∧
    parseAnswer "```\x7b\"a\": 1\x7d```" "\x7b\"a\": int\x7d" ≠
      parseAnswer "\x7b\"a\": 1\x7d" "\x7b\"a\": int\x7d" := by
  have e2 : parseAnswer "\x7b\"a\": 1\x7d" "\x7b\"a\": int\x7d" =
      Answer.json (Json.obj [("a", Json.num 1)]) := by rfl
  refine ⟨rfl, e2, fun h => ?_⟩
  rw [e2] at h
  have h' : Answer.str "```\x7b\"a\": 1\x7d```" =
      Answer.json (Json.obj [("a", Json.num 1)]) := h
  exact Answer.noConfusion h'

/-! ## C7 — integer-shaped answer parsing -/

/-- Claim C7 counterexample: `"142"` contains `"14"` but parses to `142`,
not `14` — the parser takes the whole first digit run. -/
theorem c7_counterexample :
    hasSubstr "14" "142" = true ∧ parseAnswer "142" "int" ≠ Answer.int 14 := by
  refine ⟨rfl, fun h => ?_⟩
  have h' : Answer.int (digitsToNat ['1', '4', '2'] : ℤ) = Answer.int 14 := h
  injection h' with h''
  exact absurd h'' (by decide)

set_option maxRecDepth 4000

/-- Claim C7 (amended): under format hint `"int"` the parser takes the
first contiguous digit run of the (stripped) answer; a string whose first
digit run is `"14"` parses to `14`, a string with no digits parses to the
defined fallback `0`. -/
theorem c7_int_parsing :
    (∀ s : String, firstDigitRunL (pyStrip s).data = some ['1', '4'] →
      parseAnswer s "int" = Answer.int 14) ∧
    (∀ s : String, (∀ c ∈ s.data, c.isDigit = false) →
      parseAnswer s "int" = Answer.int 0) ∧
    (∀ s : String, parseAnswer s "int" =
      Answer.int (match firstDigitRunL (pyStrip s).data with
        | some ds => (digitsToNat ds : ℤ)
        | none => 0)) := by
  refine ⟨?_, ?_, ?_⟩
  · intro s h
    have h2 : parseAnswer s "int" = Answer.int (digitsToNat ['1', '4'] : ℤ) := by
      simp [parseAnswer, h]
    rw [h2]
    exact congrArg Answer.int (by decide)
  · intro s h
    have hn : firstDigitRunL (pyStrip s).data = none := by
      apply firstDigitRunL_eq_none
      intro c hc
      exact h c (mem_of_mem_pyStripL hc)
    simp [parseAnswer, hn]
  · intro s
    cases hfd : firstDigitRunL (pyStrip s).data with
    | none => simp [parseAnswer, hfd]
    | some ds => simp [parseAnswer, hfd]

/-- Witness for C7 at concrete inputs with and without digits. -/
theorem c7_witness :
    parseAnswer "The window is 14 days." "int" = Answer.int 14 ∧
    parseAnswer "no digits here" "int" = Answer.int 0 :=
  ⟨c7_int_parsing.1 "The window is 14 days." (by decide),
   c7_int_parsing.2.1 "no digits here" (by decide)⟩

/-! ## C8 — router keyword fallback -/

/-- Claim C8: whenever the classifier's normalised output is none of
`rag`/`sql`/`hybrid`, the keyword fallback applies in order: a question
containing a document keyword routes to `rag` (in particular one with
"policy" and "return"); otherwise a question containing an aggregate word
routes to `sql`, except to `hybrid` when it also carries a
temporal/campaign word; any other question defaults to `hybrid`. -/
theorem c8_router_fallback (classify : String → String) (q : String)
    (h1 : pyStrip (pyLower (classify q)) ≠ "rag")
    (h2 : pyStrip (pyLower (classify q)) ≠ "sql")
    (h3 : pyStrip (pyLower (classify q)) ≠ "hybrid") :
    ((docWords.any fun w => hasSubstr w (pyLower q)) = true →
      routerForward classify q = "rag") ∧
    ((docWords.any fun w => hasSubstr w (pyLower q)) = false →
      ((["revenue", "top", "total", "count"] : List String).any
          fun w => hasSubstr w (pyLower q)) = true →
      ((tempWords.any fun w => hasSubstr w (pyLower q)) = true →
        routerForward classify q = "hybrid") ∧
      ((tempWords.any fun w => hasSubstr w (pyLower q)) = false →
        routerForward classify q = "sql")) ∧
    ((docWords.any fun w => hasSubstr w (pyLower q)) = false →
      (aggWords.any fun w => hasSubstr w (pyLower q)) = false →
      routerForward classify q = "hybrid") ∧
    (hasSubstr "policy" (pyLower q) = true → hasSubstr "return" (pyLower q) = true →
      routerForward classify q = "rag") := by
  have hno : ¬ (pyStrip (pyLower (classify q)) = "rag" ∨
      pyStrip (pyLower (classify q)) = "sql" ∨ pyStrip (pyLower (classify q)) = "hybrid") := by
    rintro (h | h | h)
    exacts [h1 h, h2 h, h3 h]
  have hagg : (((["revenue", "top", "total", "count"] : List String).any
      fun w => hasSubstr w (pyLower q)) = true) →
      (aggWords.any fun w => hasSubstr w (pyLower q)) = true := by
    intro h
    rw [List.any_eq_true] at h ⊢
    obtain ⟨w, hw, hpw⟩ := h
    refine ⟨w, ?_, hpw⟩
    simp only [List.mem_cons, List.not_mem_nil, or_false] at hw
    rcases hw with rfl | rfl | rfl | rfl <;> simp [aggWords]
  refine ⟨?_, ?_, ?_, ?_⟩
  · intro hdoc
    simp [routerForward, hno, hdoc]
  · intro hdoc hag
    constructor <;> intro htmp <;>
      simp [routerForward, hno, hdoc, hagg hag, htmp]
  · intro hdoc hag
    simp [routerForward, hno, hdoc, hag]
  · intro hp hr
    have hdoc : (docWords.any fun w => hasSubstr w (pyLower q)) = true := by
      rw [List.any_eq_true]
      exact ⟨"policy", by simp [docWords], hp⟩
    simp [routerForward, hno, hdoc]

/-- Witness for C8: an unrecognised classifier label and a question with
the keywords "policy" and "return" selects `rag`. -/
theorem c8_witness :
    routerForward (fun _ => "unsure") "What is the return policy for Beverages?" = "rag" :=
  (c8_router_fallback (fun _ => "unsure") "What is the return policy for Beverages?"
    (by decide) (by decide) (by decide)).2.2.2 (by decide) (by decide)

/-! ## C3 — the confidence score -/

/-- A clamped-then-rounded score is nonnegative. -/
theorem round2_clamp_nonneg (x : ℚ) : 0 ≤ round2 (0 ⊔ 1 ⊓ x) := by
  unfold round2
  apply div_nonneg _ (by norm_num)
  have h0 : (0 : ℚ) ≤ 0 ⊔ 1 ⊓ x := le_max_left _ _
  have h : (0 : ℤ) ≤ round ((0 ⊔ 1 ⊓ x) * 100) := by
    rw [round_eq]
    apply Int.le_floor.mpr
    push_cast
    nlinarith [h0]
  exact_mod_cast h

/-- A clamped-then-rounded score is at most one. -/
theorem round2_clamp_le_one (x : ℚ) : round2 (0 ⊔ 1 ⊓ x) ≤ 1 := by
  unfold round2
  rw [div_le_one (by norm_num)]
  have h1 : (0 ⊔ 1 ⊓ x) ≤ 1 := max_le (by norm_num) (min_le_left _ _)
  have h : round ((0 ⊔ 1 ⊓ x) * 100) ≤ 100 := by
    rw [round_eq]
    have hlt : ⌊(0 ⊔ 1 ⊓ x) * 100 + 1 / 2⌋ < 101 := by
      apply Int.floor_lt.mpr
      push_cast
      nlinarith [h1]
    omega
  exact_mod_cast h

set_option maxHeartbeats 2000000

/-- Claim C3: the confidence score is a deterministic function of the run
state, always in `[0,1]`, and equals the specification's formula
`clamp((0.55 + doc + sql + cit) * 0.9^repair_count, 0, 1)` rounded to two
decimals (`calcConfidence` is the source transcription, `specConfidence`
the claim's wording; in particular `0.5 * avg * 0.35 = 0.175 * avg` and
the `repair_count = 0` branch agrees with `0.9^0 = 1`). -/
theorem c3_confidence (s : AgentState) :
    calcConfidence s = specConfidence s ∧
    0 ≤ calcConfidence s ∧ calcConfidence s ≤ 1 := by
  refine ⟨?_, round2_clamp_nonneg _, round2_clamp_le_one _⟩
  have hlen : s.retrieved_chunks ≠ [] →
      (1 : ℚ) ⊔ (s.retrieved_chunks.length : ℚ) = (s.retrieved_chunks.length : ℚ) := by
    intro h
    exact max_eq_right (by exact_mod_cast Nat.one_le_iff_ne_zero.mpr (by simpa using h))
  unfold calcConfidence specConfidence
  by_cases hc : s.retrieved_chunks = [] <;>
    by_cases hcit : s.citations = [] <;>
    rcases hrc : s.repair_count with _ | k <;>
    rcases hsr : s.sql_result with _ | r
  all_goals try cases hsucc : r.success
  all_goals try rcases hrows : r.rows with _ | ⟨a, t⟩
  all_goals simp [hc, hcit, hlen, *]
  all_goals ring_nf

set_option maxHeartbeats 200000

/-! ## C5 — citation building in the synthesize node -/

/-- The citation list written by the synthesize node. -/
theorem synthesizeNode_citations (A : Adapters) (s : AgentState) :
    (synthesizeNode A s).citations = (docCitations s ++ tableCitations s).dedup := rfl

/-- Claim C5: the synthesize node's citation set consists exactly of the
identifiers of retrieved fragments with score above `0.01` together with
the successful query's tables (deduplicated); in the scenario with two
fragments of scores `0.5` and `0.02` (both admitted, `0.02 > 0.01`) and a
successful query on one table, the citations are precisely the two
fragment identifiers plus the table. -/
theorem c5_citations :
    (∀ (A : Adapters) (s : AgentState) (x : String),
      x ∈ (synthesizeNode A s).citations ↔
        ((∃ c ∈ s.retrieved_chunks, (1 : ℚ) / 100 < c.score ∧ c.id = x) ∨
         (∃ r, s.sql_result = some r ∧ r.success = true ∧ x ∈ r.tables_used))) ∧
    (∀ (A : Adapters) (s : AgentState) (c1 c2 : DocumentChunk) (r : QueryResult) (t : String),
      s.retrieved_chunks = [c1, c2] → c1.score = 1 / 2 → c2.score = 1 / 50 →
      s.sql_result = some r → r.success = true → r.tables_used = [t] →
      c1.id ≠ c2.id → t ≠ c1.id → t ≠ c2.id →
      (synthesizeNode A s).citations = [c1.id, c2.id, t]) := by
  constructor
  · intro A s x
    rw [synthesizeNode_citations]
    rcases hsr : s.sql_result with _ | r
    · simp [docCitations, tableCitations, hsr, List.mem_dedup, List.mem_append,
        List.mem_map, List.mem_filter, decide_eq_true_eq, and_assoc]
    · cases hsucc : r.success <;>
        simp [docCitations, tableCitations, hsr, hsucc, List.mem_dedup, List.mem_append,
          List.mem_map, List.mem_filter, decide_eq_true_eq, and_assoc]
  · intro A s c1 c2 r t hch h1 h2 hsr hsucc htab hne1 hne2 hne3
    have hfA : decide ((1 : ℚ) / 100 < c1.score) = true := decide_eq_true (by rw [h1]; norm_num)
    have hfB : decide ((1 : ℚ) / 100 < c2.score) = true := decide_eq_true (by rw [h2]; norm_num)
    rw [synthesizeNode_citations]
    simp only [docCitations, tableCitations, hch, hsr, hsucc, htab,
      List.filter, hfA, hfB, if_true, List.map]
    rw [List.cons_append, List.cons_append, List.nil_append, List.dedup_eq_self]
    simp [List.nodup_cons, hne1, Ne.symm hne2, Ne.symm hne3]

/-- Witness for C5 at the concrete scenario state. -/
theorem c5_witness :
    (synthesizeNode AdFail stateC5).citations =
      ["product_policy::chunk0", "product_policy::chunk1", "Orders"] :=
  c5_citations.2 AdFail stateC5 chunkA chunkB okOrders "Orders"
    rfl rfl rfl rfl rfl rfl (by decide) (by decide) (by decide)

/-! ## C2 — the repair counter invariant -/

/-- A `retry` decision is only produced below the repair bound. -/
theorem checkSqlSuccess_retry (s : AgentState) (h : checkSqlSuccess s = "retry") :
    s.repair_count < MAX_REPAIRS := by
  unfold checkSqlSuccess at h
  split at h
  · simp at h
  · split at h
    · simp at h
    · split at h
      · assumption
      · simp at h

/-- The only edge into `repair_sql` is the `retry` decision of
`execute_sql`, taken below the repair bound. -/
theorem nextNode_go_repair (n : Node) (s : AgentState)
    (h : nextNode n s = Next.go Node.repair_sql) :
    n = Node.execute_sql ∧ s.repair_count < MAX_REPAIRS := by
  cases n <;> simp only [nextNode] at h
  case route =>
    by_cases h1 : routeDecision s = "rag" <;> by_cases h2 : routeDecision s = "sql" <;>
      by_cases h3 : routeDecision s = "hybrid" <;> simp [h1, h2, h3] at h
  case plan =>
    by_cases h1 : needsSql s = "yes" <;> by_cases h2 : needsSql s = "no" <;>
      simp [h1, h2] at h
  case synthesize =>
    by_cases h1 : checkSynthesis s = "valid" <;> by_cases h2 : checkSynthesis s = "retry" <;>
      by_cases h3 : checkSynthesis s = "done" <;> simp [h1, h2, h3] at h
  case retrieve => simp at h
  case generate_sql => simp at h
  case repair_sql => simp at h
  case validate => simp at h
  case execute_sql =>
    refine ⟨rfl, ?_⟩
    by_cases h1 : checkSqlSuccess s = "success"
    · simp [h1] at h
    · by_cases h2 : checkSqlSuccess s = "retry"
      · exact checkSqlSuccess_retry s h2
      · by_cases h3 : checkSqlSuccess s = "fail" <;> simp [h1, h2, h3] at h

/-- The route node resets the repair counter. -/
theorem runNode_route_repair (A : Adapters) (s : AgentState) :
    (runNode A Node.route s).repair_count = 0 := rfl

/-- The repair node increments the repair counter. -/
theorem runNode_repair_repair (A : Adapters) (s : AgentState) :
    (runNode A Node.repair_sql s).repair_count = s.repair_count + 1 := rfl

/-- No other node touches the repair counter. -/
theorem runNode_other_repair (A : Adapters) (n : Node) (s : AgentState)
    (h1 : n ≠ Node.route) (h2 : n ≠ Node.repair_sql) :
    (runNode A n s).repair_count = s.repair_count := by
  cases n <;> first | rfl | simp_all

/-- Invariant carried by every reachable configuration: the counter is
within the bound, strictly below it on entry to `repair_sql`. -/
theorem reach_good (A : Adapters) (s₀ : AgentState) (h0 : s₀.repair_count = 0)
    (c : Node × AgentState) (hc : ReachesC A (Node.route, s₀) c) :
    c.2.repair_count ≤ MAX_REPAIRS ∧
      (c.1 = Node.repair_sql → c.2.repair_count < MAX_REPAIRS) := by
  induction hc with
  | start => exact ⟨by simp [h0], fun h => by simp at h⟩
  | more hprev hedge ih =>
    rename_i n s n'
    dsimp only at ih ⊢
    refine ⟨?_, ?_⟩
    · by_cases hn : n = Node.repair_sql
      · subst hn
        rw [runNode_repair_repair]
        have := ih.2 rfl
        omega
      · by_cases hr : n = Node.route
        · subst hr
          rw [runNode_route_repair]
          exact Nat.zero_le _
        · rw [runNode_other_repair A n s hr hn]
          exact ih.1
    · intro hv
      subst hv
      exact (nextNode_go_repair n (runNode A n s) hedge).2

/-- Claim C2: `repair_count` is reset to `0` by the route node,
incremented only by `repair_sql`, which is entered only when the
`execute_sql` decision sees `repair_count < MAX_REPAIRS`; hence
`repair_count ≤ MAX_REPAIRS = 2` holds in every reachable state of a run
(including the state produced by the current node, so also at
completion). -/
theorem c2_repair_count_invariant :
    (∀ (A : Adapters) (s : AgentState), (runNode A Node.route s).repair_count = 0) ∧
    (∀ (A : Adapters) (s : AgentState),
      (runNode A Node.repair_sql s).repair_count = s.repair_count + 1) ∧
    (∀ (A : Adapters) (n : Node) (s : AgentState), n ≠ Node.route → n ≠ Node.repair_sql →
      (runNode A n s).repair_count = s.repair_count) ∧
    (∀ (n : Node) (s : AgentState), nextNode n s = Next.go Node.repair_sql →
      n = Node.execute_sql ∧ s.repair_count < MAX_REPAIRS) ∧
    (∀ (A : Adapters) (s₀ : AgentState) (c : Node × AgentState), s₀.repair_count = 0 →
      ReachesC A (Node.route, s₀) c →
      c.2.repair_count ≤ MAX_REPAIRS ∧ (runNode A c.1 c.2).repair_count ≤ MAX_REPAIRS) := by
  refine ⟨fun A s => runNode_route_repair A s, fun A s => runNode_repair_repair A s,
    runNode_other_repair, nextNode_go_repair, ?_⟩
  intro A s₀ c h0 hc
  obtain ⟨hle, hrep⟩ := reach_good A s₀ h0 c hc
  refine ⟨hle, ?_⟩
  by_cases hn : c.1 = Node.repair_sql
  · rw [hn, runNode_repair_repair]
    have := hrep hn
    omega
  · by_cases hr : c.1 = Node.route
    · rw [hr, runNode_route_repair]
      exact Nat.zero_le _
    · rw [runNode_other_repair A c.1 c.2 hr hn]
      exact hle

/-- Witness for C2: the invariant at the start configuration of a
concrete run and at the state its route node produces. -/
theorem c2_witness :
    (mkInitState "total revenue" "int").repair_count ≤ MAX_REPAIRS ∧
      (runNode AdFail Node.route (mkInitState "total revenue" "int")).repair_count ≤
        MAX_REPAIRS :=
  c2_repair_count_invariant.2.2.2.2 AdFail (mkInitState "total revenue" "int")
    (Node.route, mkInitState "total revenue" "int") rfl ReachesC.start

/-! ## C6 — the `sql` route never retrieves -/

/-- Every handler appends exactly its node name to the trace. -/
theorem runNode_trace (A : Adapters) (n : Node) (s : AgentState) :
    (runNode A n s).trace_events = s.trace_events ++ [nodeName n] := by
  cases n <;> rfl

/-- No edge leads back to the route node. -/
theorem nextNode_ne_route (n : Node) (s : AgentState) (n' : Node)
    (h : nextNode n s = Next.go n') : n' ≠ Node.route := by
  intro hv
  subst hv
  cases n <;> simp only [nextNode] at h
  case route =>
    by_cases h1 : routeDecision s = "rag" <;> by_cases h2 : routeDecision s = "sql" <;>
      by_cases h3 : routeDecision s = "hybrid" <;> simp [h1, h2, h3] at h
  case plan =>
    by_cases h1 : needsSql s = "yes" <;> by_cases h2 : needsSql s = "no" <;>
      simp [h1, h2] at h
  case synthesize =>
    by_cases h1 : checkSynthesis s = "valid" <;> by_cases h2 : checkSynthesis s = "retry" <;>
      by_cases h3 : checkSynthesis s = "done" <;> simp [h1, h2, h3] at h
  case execute_sql =>
    by_cases h1 : checkSqlSuccess s = "success" <;> by_cases h2 : checkSqlSuccess s = "retry" <;>
      by_cases h3 : checkSqlSuccess s = "fail" <;> simp [h1, h2, h3] at h
  all_goals simp at h

/-- The only edge into the retrieve node leaves the route node on a `rag`
or `hybrid` decision. -/
theorem nextNode_go_retrieve (n : Node) (s : AgentState)
    (h : nextNode n s = Next.go Node.retrieve) :
    n = Node.route ∧ (s.route = "rag" ∨ s.route = "hybrid") := by
  cases n <;> simp only [nextNode] at h
  case route =>
    refine ⟨rfl, ?_⟩
    by_cases h1 : routeDecision s = "rag"
    · exact Or.inl h1
    · by_cases h2 : routeDecision s = "sql"
      · simp [h1, h2] at h
      · by_cases h3 : routeDecision s = "hybrid"
        · exact Or.inr h3
        · simp [h1, h2, h3] at h
  case plan =>
    by_cases h1 : needsSql s = "yes" <;> by_cases h2 : needsSql s = "no" <;>
      simp [h1, h2] at h
  case synthesize =>
    by_cases h1 : checkSynthesis s = "valid" <;> by_cases h2 : checkSynthesis s = "retry" <;>
      by_cases h3 : checkSynthesis s = "done" <;> simp [h1, h2, h3] at h
  case execute_sql =>
    by_cases h1 : checkSqlSuccess s = "success" <;> by_cases h2 : checkSqlSuccess s = "retry" <;>
      by_cases h3 : checkSqlSuccess s = "fail" <;> simp [h1, h2, h3] at h
  all_goals simp at h

/-- Away from the route and retrieve nodes, a completed run adds no
`retrieve` event to the trace. -/
theorem runAux_count_retrieve (A : Adapters) :
    ∀ (fuel : Nat) (n : Node) (s final : AgentState),
      n ≠ Node.route → n ≠ Node.retrieve →
      runAux A fuel n s = some final →
      countOccur "retrieve" final.trace_events = countOccur "retrieve" s.trace_events := by
  intro fuel
  induction fuel with
  | zero =>
    intro n s final _ _ h
    simp [runAux] at h
  | succ f ih =>
    intro n s final hn1 hn2 h
    have hns : countOccur "retrieve" (runNode A n s).trace_events =
        countOccur "retrieve" s.trace_events := by
      have hne : nodeName n ≠ "retrieve" := by
        cases n <;> first | exact absurd rfl hn2 | decide
      rw [runNode_trace]
      simp only [countOccur, List.count_append]
      have h0 : List.count "retrieve" [nodeName n] = 0 :=
        List.count_eq_zero.mpr (by simpa using Ne.symm hne)
      omega
    rw [runAux] at h
    split at h
    · rename_i n' heq
      have hv : n' ≠ Node.retrieve := by
        intro hv
        subst hv
        exact hn1 (nextNode_go_retrieve n (runNode A n s) heq).1
      rw [ih n' (runNode A n s) final (nextNode_ne_route n (runNode A n s) n' heq) hv h, hns]
    · rename_i heq
      have hfin : final = runNode A n s := by
        injection h with h'
        exact h'.symm
      rw [hfin, hns]
    · exact absurd h (by simp)

/-- Claim C6: in a run whose classified route is `sql`, the retrieve node
never executes (the run's trace has no `retrieve` event, so the retrieval
adapter is called zero times); the `sql` decision sends `route` directly
to `plan`, and the retrieve node is reachable only from `route` under a
`rag` or `hybrid` decision. -/
theorem c6_sql_route_skips_retrieve :
    (∀ (A : Adapters) (fuel : Nat) (q hint : String) (final : AgentState),
      runAgent A fuel q hint = some final →
      routerForward A.classify q = "sql" →
      countOccur "retrieve" final.trace_events = 0) ∧
    (∀ (A : Adapters) (s : AgentState),
      routerForward A.classify s.question = "sql" →
      nextNode Node.route (runNode A Node.route s) = Next.go Node.plan) ∧
    (∀ (n : Node) (s : AgentState), nextNode n s = Next.go Node.retrieve →
      n = Node.route ∧ (s.route = "rag" ∨ s.route = "hybrid")) := by
  have hplan : ∀ (A : Adapters) (s : AgentState),
      routerForward A.classify s.question = "sql" →
      nextNode Node.route (runNode A Node.route s) = Next.go Node.plan := by
    intro A s hr
    have hroute : (runNode A Node.route s).route = "sql" := by
      simp [runNode, routeNode, hr]
    simp [nextNode, routeDecision, hroute]
  refine ⟨?_, hplan, nextNode_go_retrieve⟩
  intro A fuel q hint final hrun hr
  rcases fuel with _ | f
  · simp [runAgent, runAux] at hrun
  · rw [runAgent, runAux] at hrun
    rw [hplan A (mkInitState q hint) hr] at hrun
    have hcount := runAux_count_retrieve A f Node.plan
      (runNode A Node.route (mkInitState q hint)) final (by simp) (by simp) hrun
    rw [hcount, runNode_trace]
    simp [mkInitState, countOccur, nodeName]

/-- Witness for C6: a completed concrete run classified `sql` has no
`retrieve` event in its trace. -/
theorem c6_witness :
    countOccur "retrieve"
      ((runAgent AdFail 20 "total revenue" "int").elim [] AgentState.trace_events) = 0 := by
  rcases hE : runAgent AdFail 20 "total revenue" "int" with _ | f
  · have hs : (runAgent AdFail 20 "total revenue" "int").isSome = true := by decide
    rw [hE] at hs
    simp at hs
  · simp only [hE, Option.elim]
    exact c6_sql_route_skips_retrieve.1 AdFail 20 "total revenue" "int" f hE (by decide)

/-! ## C10 — failed queries contribute no table citations -/

/-- Only the validate node reaches `END`. -/
theorem nextNode_finish (n : Node) (s : AgentState) (h : nextNode n s = Next.finish) :
    n = Node.validate := by
  cases n <;> simp only [nextNode] at h
  case route =>
    by_cases h1 : routeDecision s = "rag" <;> by_cases h2 : routeDecision s = "sql" <;>
      by_cases h3 : routeDecision s = "hybrid" <;> simp [h1, h2, h3] at h
  case plan =>
    by_cases h1 : needsSql s = "yes" <;> by_cases h2 : needsSql s = "no" <;>
      simp [h1, h2] at h
  case synthesize =>
    by_cases h1 : checkSynthesis s = "valid" <;> by_cases h2 : checkSynthesis s = "retry" <;>
      by_cases h3 : checkSynthesis s = "done" <;> simp [h1, h2, h3] at h
  case execute_sql =>
    by_cases h1 : checkSqlSuccess s = "success" <;> by_cases h2 : checkSqlSuccess s = "retry" <;>
      by_cases h3 : checkSqlSuccess s = "fail" <;> simp [h1, h2, h3] at h
  case validate => rfl
  all_goals simp at h

/-- The only edge into the validate node leaves the synthesize node. -/
theorem nextNode_go_validate (n : Node) (s : AgentState)
    (h : nextNode n s = Next.go Node.validate) : n = Node.synthesize := by
  cases n <;> simp only [nextNode] at h
  case route =>
    by_cases h1 : routeDecision s = "rag" <;> by_cases h2 : routeDecision s = "sql" <;>
      by_cases h3 : routeDecision s = "hybrid" <;> simp [h1, h2, h3] at h
  case plan =>
    by_cases h1 : needsSql s = "yes" <;> by_cases h2 : needsSql s = "no" <;>
      simp [h1, h2] at h
  case synthesize => rfl
  case execute_sql =>
    by_cases h1 : checkSqlSuccess s = "success" <;> by_cases h2 : checkSqlSuccess s = "retry" <;>
      by_cases h3 : checkSqlSuccess s = "fail" <;> simp [h1, h2, h3] at h
  all_goals simp at h

/-- Every completed run ends by synthesizing and then validating: the
final state is the validate node's output on a synthesize output. -/
theorem runAux_terminal (A : Adapters) :
    ∀ (fuel : Nat) (n : Node) (s final : AgentState),
      runAux A fuel n s = some final →
      (n = Node.validate → ∃ u, s = synthesizeNode A u) →
      ∃ u, final = validateNode (synthesizeNode A u) := by
  intro fuel
  induction fuel with
  | zero =>
    intro n s final h _
    simp [runAux] at h
  | succ f ih =>
    intro n s final h hpre
    rw [runAux] at h
    split at h
    · rename_i n' heq
      apply ih n' (runNode A n s) final h
      intro hv
      subst hv
      have hn := nextNode_go_validate n (runNode A n s) heq
      subst hn
      exact ⟨s, rfl⟩
    · rename_i heq
      have hn := nextNode_finish n (runNode A n s) heq
      subst hn
      injection h with h'
      obtain ⟨u, hu⟩ := hpre rfl
      refine ⟨u, by rw [← h', hu]; rfl⟩
    · exact absurd h (by simp)

/-- Claim C10: in every completed run whose last query execution failed,
the citations are exactly the deduplicated identifiers of fragments with
score above `0.01` — no table name of the failed query is cited. -/
theorem c10_failed_query_citations :
    ∀ (A : Adapters) (fuel : Nat) (q hint : String) (final : AgentState) (r : QueryResult),
      runAgent A fuel q hint = some final →
      final.sql_result = some r →
      r.success = false →
      final.citations = (docCitations final).dedup ∧
      (∀ x ∈ final.citations,
        ∃ c ∈ final.retrieved_chunks, (1 : ℚ) / 100 < c.score ∧ c.id = x) := by
  intro A fuel q hint final r hrun hsr hsucc
  obtain ⟨u, hu⟩ := runAux_terminal A fuel Node.route (mkInitState q hint) final hrun
    (fun hv => absurd hv (by decide))
  have husr : u.sql_result = some r := by
    rw [hu] at hsr
    exact hsr
  have htab : tableCitations u = [] := by
    unfold tableCitations
    simp [husr, hsucc]
  have hcit : final.citations = (docCitations u).dedup := by
    rw [hu]
    show (docCitations u ++ tableCitations u).dedup = _
    rw [htab, List.append_nil]
  have hchunks : final.retrieved_chunks = u.retrieved_chunks := by
    rw [hu]
    rfl
  have hdoc : docCitations final = docCitations u := by
    unfold docCitations
    rw [hchunks]
  constructor
  · rw [hcit, hdoc]
  · intro x hx
    rw [hcit, List.mem_dedup] at hx
    unfold docCitations at hx
    rw [List.mem_map] at hx
    obtain ⟨c, hc, hid⟩ := hx
    rw [List.mem_filter] at hc
    exact ⟨c, by rw [hchunks]; exact hc.1, by simpa using hc.2, hid⟩

/-- Witness for C10: the concrete always-failing run cites nothing (no
fragments were retrieved on the `sql` route and the failed query's table
names are excluded). -/
theorem c10_witness :
    (runAgent AdFail 20 "total revenue" "int").elim [] AgentState.citations = [] := by
  rcases hE : runAgent AdFail 20 "total revenue" "int" with _ | f
  · have hs : (runAgent AdFail 20 "total revenue" "int").isSome = true := by decide
    rw [hE] at hs
    simp at hs
  · simp only [hE, Option.elim]
    have hsr : f.sql_result = some failResult := by
      have hmap : (runAgent AdFail 20 "total revenue" "int").elim none AgentState.sql_result =
          some failResult := by decide
      rw [hE] at hmap
      simpa using hmap
    have h := c10_failed_query_citations AdFail 20 "total revenue" "int" f failResult hE hsr rfl
    have hch : f.retrieved_chunks = [] := by
      have hmap : (runAgent AdFail 20 "total revenue" "int").elim []
          AgentState.retrieved_chunks = [] := by decide
      rw [hE] at hmap
      simpa using hmap
    rw [h.1]
    simp [docCitations, hch]

/-! ## C1 — repair-loop termination under an always-failing adapter -/

/-- Integer-shaped parsing never produces a JSON `null`. -/
theorem parseAnswer_int_ne_null (a : String) :
    parseAnswer a "int" ≠ Answer.json Json.null := by
  cases hfd : firstDigitRunL (pyStrip a).data with
  | none => simp [parseAnswer, hfd]
  | some ds => simp [parseAnswer, hfd]

/-- Claim C1 counterexample: with an always-failing database adapter, a
structured format hint and a synthesizer that answers the literal
`null`, the run does terminate with exactly three `execute_sql` attempts,
but the completed run's `final_answer` is null (Python `None`, the parse
of JSON `null`) — against the claimed unconditional non-null answer. -/
theorem c1_counterexample :
    (runAgent AdNull 12 "total revenue" "\x7b\x7d").isSome = true ∧
    countOccur "execute_sql" (traceOfRun (runAgent AdNull 12 "total revenue" "\x7b\x7d")) = 3 ∧
    answerIsNull (finalOfRun (runAgent AdNull 12 "total revenue" "\x7b\x7d")) = true :=
  ⟨by decide, by decide, by decide⟩

set_option maxHeartbeats 4000000

/-- Claim C1 (amended): for every question, format hint and adapters
whose database reports failure on every execution, the workflow run
terminates (fuel 12 suffices); the `execute_sql` node runs at most
`1 + MAX_REPAIRS = 3` times; synthesis still runs, assigning
`final_answer`; and `final_answer` is non-null whenever no answer string
parses to JSON `null` under the run's format hint — in particular for
the hint `"int"` (`parseAnswer_int_ne_null`). -/
theorem c1_repair_loop_termination :
    ∀ (A : Adapters) (q hint : String),
      (∀ sql, (A.db sql).success = false) →
      (runAgent A 12 q hint).isSome = true ∧
      countOccur "execute_sql" (traceOfRun (runAgent A 12 q hint)) ≤ 1 + MAX_REPAIRS ∧
      (finalOfRun (runAgent A 12 q hint)).isSome = true ∧
      ((∀ a : String, parseAnswer a hint ≠ Answer.json Json.null) →
        answerIsNull (finalOfRun (runAgent A 12 q hint)) = false) := by
  intro A q hint hfail
  rcases routerForward_mem A.classify q with hr | hr | hr
  · simp [runAgent, runAux, runNode, nextNode, routeNode, retrieveNode, planNode,
      generateSqlNode, executeSqlNode, repairSqlNode, synthesizeNode, validateNode,
      routeDecision, needsSql, checkSqlSuccess, checkSynthesis, mkInitState, hr, hfail,
      traceOfRun, finalOfRun, countOccur, renderSqlResult, MAX_REPAIRS]
    intro hNN
    exact answerIsNull_some (hNN _)
  · simp [runAgent, runAux, runNode, nextNode, routeNode, retrieveNode, planNode,
      generateSqlNode, executeSqlNode, repairSqlNode, synthesizeNode, validateNode,
      routeDecision, needsSql, checkSqlSuccess, checkSynthesis, mkInitState, hr, hfail,
      traceOfRun, finalOfRun, countOccur, renderSqlResult, MAX_REPAIRS]
    intro hNN
    exact answerIsNull_some (hNN _)
  · simp [runAgent, runAux, runNode, nextNode, routeNode, retrieveNode, planNode,
      generateSqlNode, executeSqlNode, repairSqlNode, synthesizeNode, validateNode,
      routeDecision, needsSql, checkSqlSuccess, checkSynthesis, mkInitState, hr, hfail,
      traceOfRun, finalOfRun, countOccur, renderSqlResult, MAX_REPAIRS]
    intro hNN
    exact answerIsNull_some (hNN _)

set_option maxHeartbeats 200000

/-- Witness for C1 at the concrete always-failing adapters with the
integer format hint. -/
theorem c1_witness :
    (runAgent AdFail 12 "total revenue" "int").isSome = true ∧
    countOccur "execute_sql" (traceOfRun (runAgent AdFail 12 "total revenue" "int")) ≤
      1 + MAX_REPAIRS ∧
    (finalOfRun (runAgent AdFail 12 "total revenue" "int")).isSome = true ∧
    ((∀ a : String, parseAnswer a "int" ≠ Answer.json Json.null) →
      answerIsNull (finalOfRun (runAgent AdFail 12 "total revenue" "int")) = false) :=
  c1_repair_loop_termination AdFail "total revenue" "int" (fun _ => rfl)

end RetailCopilot
